import Mathlib

/-!
Verification of the cloud-monitoring client (`pyrax/cloudmonitoring.py`).

The embedding models Python values with `PyVal`, Python's `len` with the
fallible `pyLen` (raising a type error on values without a length), the
validation exceptions of `pyrax.exceptions` with `PyErr`, and the HTTP
transport with an `Api` record of response functions plus an explicit
trace of issued `Request`s.
-/

namespace CloudMonitoring

/-- Untyped Python values as they appear in request and response bodies.
Dictionaries are association lists with string keys, in insertion order. -/
inductive PyVal where
  | none : PyVal
  | bool : Bool → PyVal
  | int : Int → PyVal
  | str : String → PyVal
  | list : List PyVal → PyVal
  | dict : List (String × PyVal) → PyVal

/-- Errors raised by the client before any network call: the validation
exceptions from `pyrax.exceptions`, plus Python's own `TypeError` (from
`len()` on an unsized value or `re.match` on a non-string) and
`NameError` (from evaluating an unbound name). -/
inductive PyErr where
  | typeError : PyErr
  | nameError : String → PyErr
  | invalidRange : String → PyErr
  | invalidSize : String → PyErr
  | invalidAgentID : String → PyErr
  | invalidNotificationType : String → PyErr

/-- Python `len`: defined on strings, lists and dicts; `TypeError` on
`None`, booleans and integers. -/
def pyLen : PyVal → Except PyErr Nat
  | PyVal.str s => Except.ok s.length
  | PyVal.list l => Except.ok l.length
  | PyVal.dict d => Except.ok d.length
  | _ => Except.error PyErr.typeError

/-- Python truthiness, as used by `if body:` and by the `if res` filter
in `_list`. -/
def pyTruthy : PyVal → Bool
  | PyVal.none => false
  | PyVal.bool b => b
  | PyVal.int i => i != 0
  | PyVal.str s => !s.isEmpty
  | PyVal.list l => !l.isEmpty
  | PyVal.dict d => !d.isEmpty

/-- Python iteration: a list yields its elements, a dict its keys, a
string its characters; other values raise `TypeError`. -/
def pyIter : PyVal → Except PyErr (List PyVal)
  | PyVal.list l => Except.ok l
  | PyVal.dict d => Except.ok (d.map (fun kv => PyVal.str kv.1))
  | PyVal.str s => Except.ok (s.data.map (fun c => PyVal.str (String.mk [c])))
  | _ => Except.error PyErr.typeError

/-- First-match lookup in an association list, as Python dict indexing
(`data["values"]`). -/
def pyLookup : List (String × PyVal) → String → Option PyVal
  | [], _ => Option.none
  | (k, v) :: rest, key => if k = key then some v else pyLookup rest key

/-- A character of the class `[-\.\w]` of `AGENT_ID_PATTERN`.  Python's
`\w` also covers non-ASCII word characters; the agent ids in play are
ASCII, so `\w` is modelled as ASCII alphanumerics plus underscore. -/
def isAgentIdChar (c : Char) : Bool :=
  c = '-' || c = '.' || c = '_' || c.isAlphanum

/-- The body of `AGENT_ID_PATTERN`: between 1 and 255 characters of the
class `[-\.\w]`. -/
def agentIdCore (t : List Char) : Bool :=
  t.all isAgentIdChar && decide (1 ≤ t.length) && decide (t.length ≤ 255)

/-- `AGENT_ID_PATTERN.match`, i.e. `re.match` of `^[-\.\w]{1,255}$`: the
`$` anchor also matches just before a single trailing newline. -/
def agentIdMatch (s : String) : Bool :=
  agentIdCore s.data ||
    (decide (s.data.getLast? = some '\n') && agentIdCore s.data.dropLast)

/-- `AGENT_ID_PATTERN.match(agent_id)` on an arbitrary value: `re.match`
raises `TypeError` when the subject is not a string. -/
def pyMatchAgentId : PyVal → Except PyErr Bool
  | PyVal.str s => Except.ok (agentIdMatch s)
  | _ => Except.error PyErr.typeError

/-- `CloudMonitoringClient._create_body`: validates and assembles the
entity-creation body. -/
def createBody (label agent_id ip_addresses metadata : PyVal) :
    Except PyErr PyVal := do
  let llen ← pyLen label
  if ¬ (1 ≤ llen ∧ llen ≤ 255) then
    throw (PyErr.invalidRange "The label must be between 1 and 255 characters long.")
  let ips ← match ip_addresses with
    | PyVal.none => pure (PyVal.dict [])
    | v => do
      let n ← pyLen v
      if n > 64 then
        throw (PyErr.invalidRange "The number of ip addresses must be between 0 and 64.")
      pure v
  let md ← match metadata with
    | PyVal.none => pure (PyVal.dict [])
    | v => do
      let n ← pyLen v
      if n > 256 then
        throw (PyErr.invalidSize "There can only be a maximum of 256 metadata entries.")
      pure v
  match agent_id with
  | PyVal.none =>
    pure (PyVal.dict [("label", label), ("ip_addresses", ips), ("metadata", md)])
  | aid => do
    let ok ← pyMatchAgentId aid
    if ¬ ok then
      throw (PyErr.invalidAgentID "The agent ID does not match its regular expression pattern.")
    pure (PyVal.dict [("id", aid), ("label", label), ("ip_addresses", ips),
      ("metadata", md)])

/-- `CloudMonitoringClient._create_check_body`: validates and assembles
the check body.  The source applies `len()` to `period` and `timeout`
and compares the length to the 30..1800 / 2..1800 bounds, so an integer
period or timeout raises `TypeError`. -/
def createCheckBody (check_type label details disabled metadata period timeout
    remote monitoring_zones_poll target_alias target_hostname
    target_resolver : PyVal) : Except PyErr PyVal := do
  let tlen ← pyLen check_type
  if ¬ (1 ≤ tlen ∧ tlen ≤ 25) then
    throw (PyErr.invalidRange "The type must be between 1 and 25 characters long.")
  let det ← match details with
    | PyVal.none => pure (PyVal.dict [])
    | v => do
      let n ← pyLen v
      if n > 256 then
        throw (PyErr.invalidSize "There can only be a maximum of 256 elements in details.")
      pure v
  let lab ← match label with
    | PyVal.none => pure (PyVal.str "")
    | v => do
      let n ← pyLen v
      if ¬ (1 ≤ n ∧ n ≤ 255) then
        throw (PyErr.invalidRange "The label must be between 1 and 255 characters long.")
      pure v
  let _md ← match metadata with
    | PyVal.none => pure (PyVal.dict [])
    | v => do
      let n ← pyLen v
      if n > 256 then
        throw (PyErr.invalidSize "There can only be a maximum of 256 metadata entries.")
      pure v
  let plen ← pyLen period
  if ¬ (30 ≤ plen ∧ plen ≤ 1800) then
    throw (PyErr.invalidRange "The period can only be between 30 and 1800 seconds.")
  let tmlen ← pyLen timeout
  if ¬ (2 ≤ tmlen ∧ tmlen ≤ 1800) then
    throw (PyErr.invalidRange "The timeout can only be between 2 and 1800 seconds.")
  let mzp := match monitoring_zones_poll with
    | PyVal.none => PyVal.list []
    | v => v
  let _ := disabled
  match remote with
  | PyVal.bool true => do
    let ta ← match target_alias with
      | PyVal.none => pure (PyVal.str "")
      | v => do
        let n ← pyLen v
        if ¬ (1 ≤ n ∧ n ≤ 64) then
          throw (PyErr.invalidRange "Target alias must be between 1 and 64 characters long.")
        pure v
    let th ← match target_hostname with
      | PyVal.none => pure (PyVal.str "")
      | v => do
        let n ← pyLen v
        if ¬ (1 ≤ n ∧ n ≤ 256) then
          throw (PyErr.invalidRange "Target hostname must be between 1 and 256 characters long.")
        pure v
    let tr := match target_resolver with
      | PyVal.none => PyVal.str ""
      | v => v
    pure (PyVal.dict [("label", lab), ("type", check_type), ("details", det),
      ("monitoring_zones_poll", mzp), ("timeout", timeout), ("period", period),
      ("target_alias", ta), ("target_hostname", th), ("target_resolver", tr)])
  | _ =>
    pure (PyVal.dict [("label", lab), ("type", check_type), ("details", det),
      ("monitoring_zones_poll", mzp), ("timeout", timeout), ("period", period),
      ("target_alias", PyVal.str "default")])

/-- `CloudMonitoringClient._create_alarm_body`: validates and assembles
the alarm body.  The `disabled` parameter is accepted but unused, as in
the source. -/
def createAlarmBody (check_id notification_plan_id criteria disabled label
    metadata : PyVal) : Except PyErr PyVal := do
  let crit ← match criteria with
    | PyVal.none => pure (PyVal.str "")
    | v => do
      let n ← pyLen v
      if ¬ (1 ≤ n ∧ n ≤ 16384) then
        throw (PyErr.invalidRange "The length of criteria must be between 1 and 16384 characters long.")
      pure v
  let lab ← match label with
    | PyVal.none => pure (PyVal.str "")
    | v => do
      let n ← pyLen v
      if ¬ (1 ≤ n ∧ n ≤ 255) then
        throw (PyErr.invalidRange "The length of label must be between 1 and 255 characters long.")
      pure v
  let md ← match metadata with
    | PyVal.none => pure (PyVal.dict [])
    | v => do
      let n ← pyLen v
      if n > 256 then
        throw (PyErr.invalidSize "There can only be a maximium of 256 elements in metadata.")
      pure v
  let _ := disabled
  pure (PyVal.dict [("label", lab), ("check_id", check_id), ("criteria", crit),
    ("notification_plan_id", notification_plan_id), ("metadata", md)])

/-- `CloudMonitoringClient._create_notification_plan_body`: validates and
assembles the notification-plan body. -/
def createNotificationPlanBody (label critical_state ok_state
    warning_state : PyVal) : Except PyErr PyVal := do
  let llen ← pyLen label
  if ¬ (1 ≤ llen ∧ llen ≤ 255) then
    throw (PyErr.invalidRange "The length of label must be between 1 and 255 characters long.")
  let cs := match critical_state with
    | PyVal.none => PyVal.list []
    | v => v
  let os := match ok_state with
    | PyVal.none => PyVal.list []
    | v => v
  let ws := match warning_state with
    | PyVal.none => PyVal.list []
    | v => v
  pure (PyVal.dict [("label", label), ("warning_state", ws), ("ok_state", os),
    ("critical_state", cs)])

/-- `CloudMonitoringClient._create_notification_body`.  The type guard in
the source reads `if "webhook" or "email" not in notification_type:`;
the constant `"webhook"` is truthy, so by short-circuit evaluation the
branch is always taken (the `notification_type` value is never even
inspected) and the body construction below it is unreachable. -/
def createNotificationBody (details label notification_type : PyVal) :
    Except PyErr PyVal := do
  let dlen ← pyLen details
  if dlen > 256 then
    throw (PyErr.invalidSize "There can only be a maximum of 256 elements in details.")
  let llen ← pyLen label
  if ¬ (1 ≤ llen ∧ llen ≤ 255) then
    throw (PyErr.invalidRange "The length of label must be between 1 and 255 characters long.")
  let _ := notification_type
  throw (PyErr.invalidNotificationType "The notification type must be \"webhook\" or \"email\".")

/-- `CloudMonitoringClient._create_agent_token_body`: a missing label
defaults to the empty string; there is no validation. -/
def createAgentTokenBody (label : PyVal) : Except PyErr PyVal :=
  match label with
  | PyVal.none => Except.ok (PyVal.dict [("label", PyVal.str "")])
  | v => Except.ok (PyVal.dict [("label", v)])

/-- An HTTP request issued through the transport collaborator. -/
inductive Request where
  | get : String → Request
  | post : String → PyVal → Request
  | put : String → PyVal → Request

/-- The transport collaborator, modelled by its responses: `postObjectId`
is the `x-object-id` entry of the POST response metadata, and
`getBody`, `postBody`, `putBody` are the decoded response bodies of the
respective methods on a given URI. -/
structure Api where
  postObjectId : String → PyVal → String
  getBody : String → PyVal
  postBody : String → PyVal → PyVal
  putBody : String → PyVal → PyVal

/-- A resource instance as built by `BaseResource(manager, info, loaded)`:
the decoded body it was constructed from, and the loaded flag. -/
structure Resource where
  info : PyVal
  loaded : Bool

/-- `CloudMonitoringManager._create`: POST the body to the URI, then GET
the URI extended with the `x-object-id` of the POST response; return
nothing, the raw fetched body, or a resource built from it.  The
`run_hooks("modify_body_for_create", ...)` call in the source dispatches
to the hooks registered on the manager; with none registered it leaves
the body unchanged, which is how it is modelled here.  The second
component is the trace of issued requests, in order. -/
def managerCreate (api : Api) (uri : String) (body : PyVal)
    (return_none return_raw : Bool) :
    Option (PyVal ⊕ Resource) × List Request :=
  let resp_uri := uri ++ "/" ++ api.postObjectId uri body
  let fetched := api.getBody resp_uri
  let trace := [Request.post uri body, Request.get resp_uri]
  if return_none then (Option.none, trace)
  else if return_raw then (some (Sum.inl fetched), trace)
  else (some (Sum.inr { info := fetched, loaded := false }), trace)

/-- The response handling of `CloudMonitoringManager._list`: when the
body is a mapping, the list nested under `"values"` is extracted (a
missing key falls back to the mapping itself, whose iteration yields its
keys); falsy entries are skipped; each remaining entry becomes a
resource with `loaded=False`. -/
def listResources (body : PyVal) : Except PyErr (List Resource) := do
  let data := match body with
    | PyVal.dict d =>
      match pyLookup d "values" with
      | some v => v
      | Option.none => PyVal.dict d
    | b => b
  let items ← pyIter data
  pure ((items.filter pyTruthy).map (fun r => { info := r, loaded := false }))

/-- `CloudMonitoringManager._list`: POST when a truthy filter body is
supplied, otherwise GET; then unwrap and convert the response. -/
def managerList (api : Api) (uri : String) (body : PyVal) :
    Except PyErr (List Resource) × List Request :=
  if pyTruthy body then
    (listResources (api.postBody uri body), [Request.post uri body])
  else
    (listResources (api.getBody uri), [Request.get uri])

/-- A `CloudMonitoringEntity`, by the attributes its update path reads:
`label`, `agent_id`, `ip_addresses`, `metadata`, the `managed` flag, and
the identifier extracted by `utils.get_id`. -/
structure Entity where
  label : PyVal
  agent_id : PyVal
  ip_addresses : PyVal
  metadata : PyVal
  managed : PyVal
  id : String

/-- `CloudMonitoringManager.update_entity`: each field left as `None` is
filled from the entity's current value, then the full replacement body
is PUT to `/entities/{id}`.  Returns the response body and the request
trace. -/
def updateEntity (api : Api) (entity : Entity)
    (label agent_id ip_addresses metadata : PyVal) : PyVal × List Request :=
  let lab := match label with
    | PyVal.none => entity.label
    | v => v
  let aid := match agent_id with
    | PyVal.none => entity.agent_id
    | v => v
  let ips := match ip_addresses with
    | PyVal.none => entity.ip_addresses
    | v => v
  let md := match metadata with
    | PyVal.none => entity.metadata
    | v => v
  let uri := "/entities/" ++ entity.id
  let body := PyVal.dict [("label", lab), ("agent_id", aid),
    ("ip_addresses", ips), ("metadata", md)]
  (api.putBody uri body, [Request.put uri body])

/-- `CloudMonitoringEntity.update`: when `managed is False` all four
fields are forwarded; otherwise only `metadata` and `agent_id` are
forwarded, so `label` and `ip_addresses` are refilled from the entity's
current values by `update_entity`. -/
def entityUpdate (api : Api) (entity : Entity)
    (label agent_id ip_addresses metadata : PyVal) : PyVal × List Request :=
  match entity.managed with
  | PyVal.bool false => updateEntity api entity label agent_id ip_addresses metadata
  | _ => updateEntity api entity PyVal.none agent_id PyVal.none metadata

/-- `CloudMonitoringManager.create_alarm`: builds the alarm body, then
evaluates `return_none` and `return_raw` as arguments of `self._create`.
Neither name is bound in `create_alarm`'s scope, so a `NameError` is
raised (for `return_none`, the first one evaluated) before `_create`
runs; no request is ever issued. -/
def createAlarm (api : Api) (entity : Entity)
    (check_id notification_plan_id criteria disabled label metadata : PyVal) :
    Except PyErr (Option (PyVal ⊕ Resource)) × List Request :=
  let _ := api
  let _ := entity
  match createAlarmBody check_id notification_plan_id criteria disabled label
      metadata with
  | Except.error e => (Except.error e, [])
  | Except.ok _body => (Except.error (PyErr.nameError "return_none"), [])

/-- `CloudMonitoringManager.create_notification_plan`: builds the plan
body, then hits the same unbound `return_none` name before `_create`. -/
def createNotificationPlan (api : Api)
    (label critical_state ok_state warning_state : PyVal) :
    Except PyErr (Option (PyVal ⊕ Resource)) × List Request :=
  let _ := api
  match createNotificationPlanBody label critical_state ok_state
      warning_state with
  | Except.error e => (Except.error e, [])
  | Except.ok _body => (Except.error (PyErr.nameError "return_none"), [])

/-- `CloudMonitoringManager.create_notification`: builds the notification
body (which itself always raises), and would otherwise hit the unbound
`return_none` name before `_create`. -/
def createNotification (api : Api)
    (details label notification_type : PyVal) :
    Except PyErr (Option (PyVal ⊕ Resource)) × List Request :=
  let _ := api
  match createNotificationBody details label notification_type with
  | Except.error e => (Except.error e, [])
  | Except.ok _body => (Except.error (PyErr.nameError "return_none"), [])

/-- `CloudMonitoringManager.create_agent_token`: builds the token body
(which never fails), then hits the unbound `return_none` name before
`_create`. -/
def createAgentToken (api : Api) (label : PyVal) :
    Except PyErr (Option (PyVal ⊕ Resource)) × List Request :=
  let _ := api
  match createAgentTokenBody label with
  | Except.error e => (Except.error e, [])
  | Except.ok _body => (Except.error (PyErr.nameError "return_none"), [])

/-- A concrete transport used to instantiate theorems about the manager
layer. -/
def trivialApi : Api :=
  { postObjectId := fun _ _ => "id0"
    getBody := fun _ => PyVal.dict []
    postBody := fun _ _ => PyVal.dict []
    putBody := fun _ _ => PyVal.dict [] }

/-- A concrete entity used to instantiate theorems about the manager
layer. -/
def trivialEntity : Entity :=
  { label := PyVal.str "lab"
    agent_id := PyVal.none
    ip_addresses := PyVal.dict []
    metadata := PyVal.dict []
    managed := PyVal.bool false
    id := "e1" }

/-- Claim C8: the entity body builder applied to label `"web1"`, no
ip_addresses and no metadata returns exactly the three-key body whose
label is `"web1"` and whose ip_addresses and metadata are empty maps. -/
theorem entity_body_example :
    createBody (PyVal.str "web1") PyVal.none PyVal.none PyVal.none =
      Except.ok (PyVal.dict [("label", PyVal.str "web1"),
        ("ip_addresses", PyVal.dict []), ("metadata", PyVal.dict [])]) := rfl

/-- Claim C1 (refuting evaluation): the check body builder applies
`len()` to `period` and `timeout`, so every integer period and timeout —
including the in-range values the claim says are accepted — raises
`TypeError` instead of being range-checked. -/
theorem check_body_integer_period_type_error (p t : Int) :
    createCheckBody (PyVal.str "remote.http") (PyVal.str "web") PyVal.none
      (PyVal.bool false) PyVal.none (PyVal.int p) (PyVal.int t)
      (PyVal.bool false) PyVal.none PyVal.none PyVal.none PyVal.none =
      Except.error PyErr.typeError := rfl

/-- Claim C2 (refuting evaluation): the notification body builder's type
guard `if "webhook" or "email" not in notification_type:` is always
truthy, so with valid details and label every notification type — the
enumerated ones included — is rejected with the
invalid-notification-type error. -/
theorem notification_body_rejects_every_type (nt : PyVal) :
    createNotificationBody (PyVal.dict []) (PyVal.str "n") nt =
      Except.error (PyErr.invalidNotificationType
        "The notification type must be \"webhook\" or \"email\".") := rfl

/-- Claim C10: when the entity body builder is given a non-None agent id
that matches the agent-id pattern, the returned body stores it under the
key `"id"` (and has no `"agent_id"` key); when the agent id is None the
returned body has no agent key at all. -/
theorem agent_id_under_id_key (s : String) (h : agentIdMatch s = true) :
    createBody (PyVal.str "srv") (PyVal.str s) PyVal.none PyVal.none =
      Except.ok (PyVal.dict [("id", PyVal.str s), ("label", PyVal.str "srv"),
        ("ip_addresses", PyVal.dict []), ("metadata", PyVal.dict [])]) ∧
    createBody (PyVal.str "srv") PyVal.none PyVal.none PyVal.none =
      Except.ok (PyVal.dict [("label", PyVal.str "srv"),
        ("ip_addresses", PyVal.dict []), ("metadata", PyVal.dict [])]) := by
  refine ⟨?_, rfl⟩
  simp only [createBody, pyMatchAgentId, h]
  rfl

/-- Witness for `agent_id_under_id_key` at the concrete agent id
`"agent-1"`, which matches the pattern. -/
theorem agent_id_under_id_key_witness :
    createBody (PyVal.str "srv") (PyVal.str "agent-1") PyVal.none PyVal.none =
      Except.ok (PyVal.dict [("id", PyVal.str "agent-1"),
        ("label", PyVal.str "srv"), ("ip_addresses", PyVal.dict []),
        ("metadata", PyVal.dict [])]) ∧
    createBody (PyVal.str "srv") PyVal.none PyVal.none PyVal.none =
      Except.ok (PyVal.dict [("label", PyVal.str "srv"),
        ("ip_addresses", PyVal.dict []), ("metadata", PyVal.dict [])]) :=
  agent_id_under_id_key "agent-1" (by decide)

/-- Claim C4: on an entity whose managed flag is true, `update` with a
supplied label and supplied metadata issues one PUT whose body carries
the entity's current label (the supplied label is ignored) and the
supplied metadata, while the unspecified agent_id and ip_addresses are
filled from the entity's current values. -/
theorem managed_update_ignores_label (api : Api) (lab0 eaid eip emd : PyVal)
    (eid : String) (ls : String) (dm : List (String × PyVal)) :
    entityUpdate api
      { label := lab0, agent_id := eaid, ip_addresses := eip,
        metadata := emd, managed := PyVal.bool true, id := eid }
      (PyVal.str ls) PyVal.none PyVal.none (PyVal.dict dm) =
    (api.putBody ("/entities/" ++ eid)
       (PyVal.dict [("label", lab0), ("agent_id", eaid),
         ("ip_addresses", eip), ("metadata", PyVal.dict dm)]),
     [Request.put ("/entities/" ++ eid)
       (PyVal.dict [("label", lab0), ("agent_id", eaid),
         ("ip_addresses", eip), ("metadata", PyVal.dict dm)])]) := rfl

/-- Claim C5: `_create` issues a POST to the URI followed by a GET to
the URI extended with the location identifier from the POST response
metadata, and returns nothing under return_none, the raw decoded GET
body under return_raw, and otherwise a resource built from the fetched
body. -/
theorem create_posts_then_gets (api : Api) (uri : String) (body : PyVal)
    (rn rr : Bool) :
    (managerCreate api uri body rn rr).2 =
      [Request.post uri body,
       Request.get (uri ++ "/" ++ api.postObjectId uri body)] ∧
    (managerCreate api uri body rn rr).1 =
      (if rn then Option.none
       else if rr then
         some (Sum.inl (api.getBody (uri ++ "/" ++ api.postObjectId uri body)))
       else
         some (Sum.inr
           { info := api.getBody (uri ++ "/" ++ api.postObjectId uri body),
             loaded := false })) := by
  constructor <;> by_cases hrn : rn <;> by_cases hrr : rr <;>
    simp [managerCreate, hrn, hrr]

/-- Claim C6: the response handling of `_list` yields the same resource
instances for an envelope mapping a `"values"` key to a list of objects
as for the bare list of the same objects. -/
theorem list_envelope_unwrap (objs : List PyVal) :
    listResources (PyVal.dict [("values", PyVal.list objs)]) =
      listResources (PyVal.list objs) := rfl

/-- Claim C9: whenever `create_alarm`, `create_notification_plan` or
`create_agent_token` gets past body validation, it fails with the
`NameError` for the unbound `return_none` before `_create` is entered,
and issues no HTTP request; `create_notification` likewise never issues
a request (its body validation alone already always fails). -/
theorem broken_creates_issue_no_requests (api : Api) (e : Entity)
    (cid npid cr d l m l2 cs os ws det l3 nt l4 ba bp : PyVal)
    (ha : createAlarmBody cid npid cr d l m = Except.ok ba)
    (hp : createNotificationPlanBody l2 cs os ws = Except.ok bp) :
    createAlarm api e cid npid cr d l m =
      (Except.error (PyErr.nameError "return_none"), []) ∧
    createNotificationPlan api l2 cs os ws =
      (Except.error (PyErr.nameError "return_none"), []) ∧
    createAgentToken api l4 =
      (Except.error (PyErr.nameError "return_none"), []) ∧
    (createNotification api det l3 nt).2 = [] := by
  refine ⟨?_, ?_, ?_, ?_⟩
  · simp [createAlarm, ha]
  · simp [createNotificationPlan, hp]
  · cases l4 <;> simp [createAgentToken, createAgentTokenBody]
  · cases hn : createNotificationBody det l3 nt <;>
      simp [createNotification, hn]

/-- Witness for `broken_creates_issue_no_requests` at concrete arguments
whose alarm and notification-plan bodies pass validation. -/
theorem broken_creates_issue_no_requests_witness :
    createAlarm trivialApi trivialEntity (PyVal.str "c") (PyVal.str "n")
      PyVal.none (PyVal.bool false) PyVal.none PyVal.none =
      (Except.error (PyErr.nameError "return_none"), []) ∧
    createNotificationPlan trivialApi (PyVal.str "p") PyVal.none PyVal.none
      PyVal.none =
      (Except.error (PyErr.nameError "return_none"), []) ∧
    createAgentToken trivialApi (PyVal.str "t") =
      (Except.error (PyErr.nameError "return_none"), []) ∧
    (createNotification trivialApi (PyVal.dict []) (PyVal.str "n")
      (PyVal.str "email")).2 = [] :=
  broken_creates_issue_no_requests trivialApi trivialEntity
    (PyVal.str "c") (PyVal.str "n") PyVal.none (PyVal.bool false) PyVal.none
    PyVal.none (PyVal.str "p") PyVal.none PyVal.none PyVal.none
    (PyVal.dict []) (PyVal.str "n") (PyVal.str "email") (PyVal.str "t")
    (PyVal.dict [("label", PyVal.str ""), ("check_id", PyVal.str "c"),
      ("criteria", PyVal.str ""), ("notification_plan_id", PyVal.str "n"),
      ("metadata", PyVal.dict [])])
    (PyVal.dict [("label", PyVal.str "p"), ("warning_state", PyVal.list []),
      ("ok_state", PyVal.list []), ("critical_state", PyVal.list [])])
    rfl rfl

/-- Bind on a successful `Except` computation steps to the
continuation. -/
@[simp] theorem exceptOkBind {α β : Type} (a : α)
    (f : α → Except PyErr β) :
    (Except.ok a : Except PyErr α) >>= f = f a := rfl

/-- Bind on a failed `Except` computation propagates the error. -/
@[simp] theorem exceptErrorBind {α β : Type} (e : PyErr)
    (f : α → Except PyErr β) :
    (Except.error e : Except PyErr α) >>= f = Except.error e := rfl

/-- Map on a successful `Except` computation applies the function. -/
@[simp] theorem exceptMapOk {α β : Type} (f : α → β) (a : α) :
    f <$> (Except.ok a : Except PyErr α) = Except.ok (f a) := rfl

/-- Map on a failed `Except` computation propagates the error. -/
@[simp] theorem exceptMapError {α β : Type} (f : α → β) (e : PyErr) :
    f <$> (Except.error e : Except PyErr α) = Except.error e := rfl

/-- `throw` in the `Except` monad is the error constructor. -/
@[simp] theorem exceptThrowEq {α : Type} (e : PyErr) :
    (throw e : Except PyErr α) = Except.error e := rfl

/-- `pure` in the `Except` monad is the success constructor. -/
@[simp] theorem exceptPureEq {α : Type} (a : α) :
    (pure a : Except PyErr α) = Except.ok a := rfl

/-- Bind distributes over a conditional `Except` computation. -/
@[simp] theorem exceptIteBind {α β : Type} {c : Prop} [Decidable c]
    (x y : Except PyErr α) (f : α → Except PyErr β) :
    ((if c then x else y) >>= f) = if c then x >>= f else y >>= f := by
  split <;> rfl

/-- Claim C3 (counterexample): the notification body validator is given
the label `"n"`, whose length 1 lies in [1,255], yet it does not accept:
its broken type guard rejects the call even for the type `"email"`.  So
it is not the case that every body validator accepts exactly the labels
of length in [1,255]. -/
theorem label_in_range_not_accepted_cex :
    createNotificationBody (PyVal.dict []) (PyVal.str "n")
      (PyVal.str "email") =
      Except.error (PyErr.invalidNotificationType
        "The notification type must be \"webhook\" or \"email\".") := rfl

/-- Claim C3 (amended): with every other field valid, each validator
rejects a passed label with its invalid-range label error exactly when
the label's length is outside [1,255]; the entity, check, alarm and
notification-plan validators then accept exactly the in-range labels,
while the notification validator accepts none (its always-true type
guard rejects what is left). -/
theorem label_range_all_validators (s : String) :
    createBody (PyVal.str s) PyVal.none PyVal.none PyVal.none =
      (if 1 ≤ s.length ∧ s.length ≤ 255 then
        Except.ok (PyVal.dict [("label", PyVal.str s),
          ("ip_addresses", PyVal.dict []), ("metadata", PyVal.dict [])])
      else
        Except.error (PyErr.invalidRange
          "The label must be between 1 and 255 characters long.")) ∧
    createCheckBody (PyVal.str "remote.http") (PyVal.str s) PyVal.none
        (PyVal.bool false) PyVal.none
        (PyVal.list (List.replicate 30 PyVal.none))
        (PyVal.list (List.replicate 2 PyVal.none)) (PyVal.bool false)
        PyVal.none PyVal.none PyVal.none PyVal.none =
      (if 1 ≤ s.length ∧ s.length ≤ 255 then
        Except.ok (PyVal.dict [("label", PyVal.str s),
          ("type", PyVal.str "remote.http"), ("details", PyVal.dict []),
          ("monitoring_zones_poll", PyVal.list []),
          ("timeout", PyVal.list (List.replicate 2 PyVal.none)),
          ("period", PyVal.list (List.replicate 30 PyVal.none)),
          ("target_alias", PyVal.str "default")])
      else
        Except.error (PyErr.invalidRange
          "The label must be between 1 and 255 characters long.")) ∧
    createAlarmBody (PyVal.str "ch") (PyVal.str "np") PyVal.none
        (PyVal.bool false) (PyVal.str s) PyVal.none =
      (if 1 ≤ s.length ∧ s.length ≤ 255 then
        Except.ok (PyVal.dict [("label", PyVal.str s),
          ("check_id", PyVal.str "ch"), ("criteria", PyVal.str ""),
          ("notification_plan_id", PyVal.str "np"),
          ("metadata", PyVal.dict [])])
      else
        Except.error (PyErr.invalidRange
          "The length of label must be between 1 and 255 characters long.")) ∧
    createNotificationPlanBody (PyVal.str s) PyVal.none PyVal.none
        PyVal.none =
      (if 1 ≤ s.length ∧ s.length ≤ 255 then
        Except.ok (PyVal.dict [("label", PyVal.str s),
          ("warning_state", PyVal.list []), ("ok_state", PyVal.list []),
          ("critical_state", PyVal.list [])])
      else
        Except.error (PyErr.invalidRange
          "The length of label must be between 1 and 255 characters long.")) ∧
    createNotificationBody (PyVal.dict []) (PyVal.str s)
        (PyVal.str "email") =
      (if 1 ≤ s.length ∧ s.length ≤ 255 then
        Except.error (PyErr.invalidNotificationType
          "The notification type must be \"webhook\" or \"email\".")
      else
        Except.error (PyErr.invalidRange
          "The length of label must be between 1 and 255 characters long.")) := by
  by_cases h : 1 ≤ s.length ∧ s.length ≤ 255
  · obtain ⟨h1, h2⟩ := h
    refine ⟨?_, ?_, ?_, ?_, ?_⟩ <;>
      (simp [createBody, createCheckBody, createAlarmBody,
        createNotificationPlanBody, createNotificationBody, pyLen,
        h1, h2, -not_and, -not_le]
       try decide)
  · refine ⟨?_, ?_, ?_, ?_, ?_⟩ <;>
      (simp [createBody, createCheckBody, createAlarmBody,
        createNotificationPlanBody, createNotificationBody, pyLen,
        h, -not_and, -not_le]
       try decide)

/-- Claim C7 (counterexample): with remote true and the target alias,
hostname and resolver all left unsupplied, the check body builder does
not reject the call — it accepts and fills all three fields with the
empty string.  So the three target fields are not required when remote
is true. -/
theorem remote_targets_omitted_accepted_cex :
    createCheckBody (PyVal.str "remote.http") (PyVal.str "web") PyVal.none
      (PyVal.bool false) PyVal.none
      (PyVal.list (List.replicate 30 PyVal.none))
      (PyVal.list (List.replicate 2 PyVal.none)) (PyVal.bool true)
      PyVal.none PyVal.none PyVal.none PyVal.none =
      Except.ok (PyVal.dict [("label", PyVal.str "web"),
        ("type", PyVal.str "remote.http"), ("details", PyVal.dict []),
        ("monitoring_zones_poll", PyVal.list []),
        ("timeout", PyVal.list (List.replicate 2 PyVal.none)),
        ("period", PyVal.list (List.replicate 30 PyVal.none)),
        ("target_alias", PyVal.str ""), ("target_hostname", PyVal.str ""),
        ("target_resolver", PyVal.str "")]) := rfl

/-- Claim C7 (amended): when remote is false the body sets target_alias
to the sentinel `"default"` and omits target_hostname and
target_resolver, whatever targets were passed; when remote is true the
alias, hostname and resolver fields are always included in the body,
each defaulting to the empty string when not supplied, and a supplied
alias is accepted exactly when its length is in [1,64] and a supplied
hostname exactly when its length is in [1,256]. -/
theorem check_body_target_fields :
    (∀ ta th tr : PyVal,
      createCheckBody (PyVal.str "remote.http") (PyVal.str "web") PyVal.none
        (PyVal.bool false) PyVal.none
        (PyVal.list (List.replicate 30 PyVal.none))
        (PyVal.list (List.replicate 2 PyVal.none)) (PyVal.bool false)
        PyVal.none ta th tr =
        Except.ok (PyVal.dict [("label", PyVal.str "web"),
          ("type", PyVal.str "remote.http"), ("details", PyVal.dict []),
          ("monitoring_zones_poll", PyVal.list []),
          ("timeout", PyVal.list (List.replicate 2 PyVal.none)),
          ("period", PyVal.list (List.replicate 30 PyVal.none)),
          ("target_alias", PyVal.str "default")])) ∧
    (∀ a : String,
      createCheckBody (PyVal.str "remote.http") (PyVal.str "web") PyVal.none
        (PyVal.bool false) PyVal.none
        (PyVal.list (List.replicate 30 PyVal.none))
        (PyVal.list (List.replicate 2 PyVal.none)) (PyVal.bool true)
        PyVal.none (PyVal.str a) PyVal.none PyVal.none =
        (if 1 ≤ a.length ∧ a.length ≤ 64 then
          Except.ok (PyVal.dict [("label", PyVal.str "web"),
            ("type", PyVal.str "remote.http"), ("details", PyVal.dict []),
            ("monitoring_zones_poll", PyVal.list []),
            ("timeout", PyVal.list (List.replicate 2 PyVal.none)),
            ("period", PyVal.list (List.replicate 30 PyVal.none)),
            ("target_alias", PyVal.str a),
            ("target_hostname", PyVal.str ""),
            ("target_resolver", PyVal.str "")])
        else
          Except.error (PyErr.invalidRange
            "Target alias must be between 1 and 64 characters long."))) ∧
    (∀ hn : String,
      createCheckBody (PyVal.str "remote.http") (PyVal.str "web") PyVal.none
        (PyVal.bool false) PyVal.none
        (PyVal.list (List.replicate 30 PyVal.none))
        (PyVal.list (List.replicate 2 PyVal.none)) (PyVal.bool true)
        PyVal.none PyVal.none (PyVal.str hn) PyVal.none =
        (if 1 ≤ hn.length ∧ hn.length ≤ 256 then
          Except.ok (PyVal.dict [("label", PyVal.str "web"),
            ("type", PyVal.str "remote.http"), ("details", PyVal.dict []),
            ("monitoring_zones_poll", PyVal.list []),
            ("timeout", PyVal.list (List.replicate 2 PyVal.none)),
            ("period", PyVal.list (List.replicate 30 PyVal.none)),
            ("target_alias", PyVal.str ""),
            ("target_hostname", PyVal.str hn),
            ("target_resolver", PyVal.str "")])
        else
          Except.error (PyErr.invalidRange
            "Target hostname must be between 1 and 256 characters long."))) := by
  refine ⟨fun ta th tr => rfl, fun a => ?_, fun hn => ?_⟩
  · by_cases h : 1 ≤ a.length ∧ a.length ≤ 64
    · obtain ⟨h1, h2⟩ := h
      simp [createCheckBody, pyLen, h1, h2, -not_and, -not_le]
      try rfl
    · simp [createCheckBody, pyLen, h, -not_and, -not_le]
      try rfl
  · by_cases h : 1 ≤ hn.length ∧ hn.length ≤ 256
    · obtain ⟨h1, h2⟩ := h
      simp [createCheckBody, pyLen, h1, h2, -not_and, -not_le]
      try rfl
    · simp [createCheckBody, pyLen, h, -not_and, -not_le]
      try rfl

end CloudMonitoring
